import Mathlib

/-!
Verification development for a single-process bank ledger: a shallow embedding of
the ledger engine (`models/bank_system.py`, `models/account.py`,
`models/transaction.py`), the identity store (`utils/auth.py`, `models/user.py`)
and the persistence layer (`utils/data_manager.py`).

Modelling conventions:
* Python `dict`s (insertion-ordered, keyed by id strings) are association lists
  `List (Nat × α)`; `d[k] = v` is `dinsert`, `d.get(k)` is `dget`, and in-place
  mutation of the object stored at a key is `dmodify`.
* Opaque uuid identifiers and the random 10-digit account numbers / 6-digit
  reference numbers are modelled by natural numbers drawn from counters that the
  engine state threads (`next_account_id`, `next_tx_id`); the source draws them
  at random with negligible collision probability, the model draws them fresh.
* Python `float` amounts are modelled as exact rationals `ℚ`; `datetime`
  timestamps as integers (`datetime.now()` is the state's `now` field).
* Success/failure booleans returned by the engine are the first component of a
  `Bool × State` pair; the second component is the updated state.
-/

namespace Bank

/-! ### Python dict primitives over association lists -/

/-- First value stored under key `k` (`d.get(k)` / `d[k]`). -/
def dget {α : Type} (k : Nat) : List (Nat × α) → Option α
  | [] => none
  | (k', v) :: rest => if k' = k then some v else dget k rest

/-- Assignment `d[k] = v`: overwrite the entry holding key `k` in place, else append. -/
def dinsert {α : Type} (k : Nat) (v : α) : List (Nat × α) → List (Nat × α)
  | [] => [(k, v)]
  | (k', v') :: rest =>
    if k' = k then (k, v) :: rest else (k', v') :: dinsert k v rest

/-- In-place mutation of the object stored under key `k`. -/
def dmodify {α : Type} (k : Nat) (f : α → α) : List (Nat × α) → List (Nat × α)
  | [] => []
  | (k', v) :: rest =>
    if k' = k then (k', f v) :: rest else (k', v) :: dmodify k f rest

/-! ### `models/transaction.py` -/

inductive TransactionType where
  | deposit
  | withdrawal
  | transfer
  | fee
deriving DecidableEq

/-- The lowercase enum string (`TransactionType(...).value`). -/
def TransactionType.value : TransactionType → String
  | .deposit => "deposit"
  | .withdrawal => "withdrawal"
  | .transfer => "transfer"
  | .fee => "fee"

/-- The enum constructor `TransactionType(s)`; `none` models the `ValueError`
raised on an unknown string. -/
def TransactionType.ofValue : String → Option TransactionType
  | "deposit" => some .deposit
  | "withdrawal" => some .withdrawal
  | "transfer" => some .transfer
  | "fee" => some .fee
  | _ => none

inductive TransactionStatus where
  | pending
  | completed
  | failed
  | cancelled
deriving DecidableEq

def TransactionStatus.value : TransactionStatus → String
  | .pending => "pending"
  | .completed => "completed"
  | .failed => "failed"
  | .cancelled => "cancelled"

def TransactionStatus.ofValue : String → Option TransactionStatus
  | "pending" => some .pending
  | "completed" => some .completed
  | "failed" => some .failed
  | "cancelled" => some .cancelled
  | _ => none

structure Transaction where
  transaction_id : Nat
  account_id : Nat
  transaction_type : TransactionType
  amount : ℚ
  description : String
  target_account_id : Option Nat
  created_at : Int
  status : TransactionStatus
  reference_number : Nat
  fee : ℚ
deriving DecidableEq

/-- Source `Transaction.create_transaction`: fresh id, status `pending`, zero fee; the
random reference number is modelled by an id-derived fresh value. -/
def Transaction.create_transaction (transaction_id : Nat) (account_id : Nat)
    (transaction_type : TransactionType) (amount : ℚ) (description : String)
    (target_account_id : Option Nat) (now : Int) : Transaction :=
  { transaction_id := transaction_id
    account_id := account_id
    transaction_type := transaction_type
    amount := amount
    description := description
    target_account_id := target_account_id
    created_at := now
    status := TransactionStatus.pending
    reference_number := 100000 + transaction_id
    fee := 0 }

def Transaction.complete_transaction (t : Transaction) : Transaction :=
  { t with status := TransactionStatus.completed }

def Transaction.fail_transaction (t : Transaction) : Transaction :=
  { t with status := TransactionStatus.failed }

def Transaction.cancel_transaction (t : Transaction) : Transaction :=
  { t with status := TransactionStatus.cancelled }

/-! ### `models/account.py` -/

structure Account where
  account_id : Nat
  user_id : Nat
  account_number : Nat
  account_type : String
  balance : ℚ
  created_at : Int
  is_active : Bool
  daily_transaction_limit : ℚ
  monthly_transaction_limit : ℚ
deriving DecidableEq

/-- Source `Account.create_account` composed with `Account.__init__`: fresh id, the
random 10-digit account number modelled by an id-derived fresh value, active,
default limits.  The source performs no validation of `initial_balance`. -/
def Account.create_account (account_id : Nat) (user_id : Nat)
    (account_type : String) (initial_balance : ℚ) (now : Int) : Account :=
  { account_id := account_id
    user_id := user_id
    account_number := 1000000000 + account_id
    account_type := account_type
    balance := initial_balance
    created_at := now
    is_active := true
    daily_transaction_limit := 50000
    monthly_transaction_limit := 500000 }

/-- Source `Account.deposit`: reject `amount <= 0`, else add to the balance.  The
returned account is the mutated object. -/
def Account.deposit (a : Account) (amount : ℚ) : Bool × Account :=
  if amount ≤ 0 then (false, a)
  else (true, { a with balance := a.balance + amount })

/-- Source `Account.withdraw`: reject `amount <= 0 or amount > self.balance`, else
subtract from the balance. -/
def Account.withdraw (a : Account) (amount : ℚ) : Bool × Account :=
  if amount ≤ 0 ∨ a.balance < amount then (false, a)
  else (true, { a with balance := a.balance - amount })

/-- Source `Account.transfer_to` on two distinct objects: guard, debit self, credit the
target.  (Inside `BankSystem.transfer` the same mutation sequence is applied to
the stored entries, which also captures the aliased self-transfer case.) -/
def Account.transfer_to (a target : Account) (amount : ℚ) :
    Bool × Account × Account :=
  if amount ≤ 0 ∨ a.balance < amount then (false, a, target)
  else (true, { a with balance := a.balance - amount },
        { target with balance := target.balance + amount })

/-! ### `models/user.py` -/

structure User where
  user_id : Nat
  username : String
  email : String
  phone : String
  role : String
  password_hash : String
  created_at : Int
  last_login : Option Int
  is_active : Bool
deriving DecidableEq

/-- Source `User.hash_password` computes the SHA-256 hex digest of the password.  The
digest function itself is irrelevant to every claim under verification, so it is
modelled by an executable stand-in tag; no theorem depends on digest values. -/
def User.hash_password (password : String) : String :=
  String.append "sha256:" password

/-- Source `User.create_user`: fresh id, hashed password, active, no last login. -/
def User.create_user (user_id : Nat) (username password email phone role : String)
    (now : Int) : User :=
  { user_id := user_id
    username := username
    email := email
    phone := phone
    role := role
    password_hash := User.hash_password password
    created_at := now
    last_login := none
    is_active := true }

/-! ### `models/bank_system.py` — engine state and operations -/

structure BankSystem where
  accounts : List (Nat × Account)
  transactions : List (Nat × Transaction)
  next_account_id : Nat
  next_tx_id : Nat
  now : Int
deriving DecidableEq

/-- Source `get_account_by_id`: plain dict lookup, active or not. -/
def BankSystem.get_account_by_id (s : BankSystem) (account_id : Nat) :
    Option Account :=
  dget account_id s.accounts

/-- The scan inside `get_account_by_number`: first stored account whose number
matches and which is active. -/
def first_with_number (n : Nat) : List (Nat × Account) → Option Account
  | [] => none
  | (_, a) :: rest =>
    if a.account_number = n ∧ a.is_active = true then some a
    else first_with_number n rest

/-- Source `get_account_by_number`: scans `accounts.values()` in insertion order and
returns the first active account with the given number. -/
def BankSystem.get_account_by_number (s : BankSystem) (n : Nat) :
    Option Account :=
  first_with_number n s.accounts

/-- In-place credit of the destination object found by the account-number scan:
the first active entry with the given number gets `amount` added. -/
def credit_first_by_number (n : Nat) (amount : ℚ) :
    List (Nat × Account) → List (Nat × Account)
  | [] => []
  | (k, a) :: rest =>
    if a.account_number = n ∧ a.is_active = true then
      (k, { a with balance := a.balance + amount }) :: rest
    else (k, a) :: credit_first_by_number n amount rest

/-- Source `BankSystem.create_account`: store the new account; when
`initial_balance > 0` also record one pre-completed initial deposit. -/
def BankSystem.create_account (s : BankSystem) (user_id : Nat)
    (account_type : String) (initial_balance : ℚ) : Account × BankSystem :=
  let account :=
    Account.create_account s.next_account_id user_id account_type
      initial_balance s.now
  let accounts := dinsert account.account_id account s.accounts
  if 0 < initial_balance then
    let transaction :=
      (Transaction.create_transaction s.next_tx_id account.account_id
        TransactionType.deposit initial_balance "Initial deposit" none
        s.now).complete_transaction
    (account,
      { s with
        accounts := accounts
        transactions := dinsert transaction.transaction_id transaction s.transactions
        next_account_id := s.next_account_id + 1
        next_tx_id := s.next_tx_id + 1 })
  else
    (account, { s with accounts := accounts, next_account_id := s.next_account_id + 1 })

/-- Source `BankSystem.deposit`: reject unknown account or `amount <= 0` before any
record is created; otherwise create a pending transaction, mutate the stored
account via `Account.deposit`, and mark the record completed (success) or
failed (failure, account untouched). -/
def BankSystem.deposit (s : BankSystem) (account_id : Nat) (amount : ℚ)
    (description : String) : Bool × BankSystem :=
  match s.get_account_by_id account_id with
  | none => (false, s)
  | some account =>
    if amount ≤ 0 then (false, s)
    else
      let transaction :=
        Transaction.create_transaction s.next_tx_id account_id
          TransactionType.deposit amount description none s.now
      let r := account.deposit amount
      if r.1 then
        (true,
          { s with
            accounts := dmodify account_id (fun _ => r.2) s.accounts
            transactions :=
              dinsert transaction.transaction_id
                transaction.complete_transaction s.transactions
            next_tx_id := s.next_tx_id + 1 })
      else
        (false,
          { s with
            transactions :=
              dinsert transaction.transaction_id
                transaction.fail_transaction s.transactions
            next_tx_id := s.next_tx_id + 1 })

/-- Source `BankSystem.withdraw`: reject unknown account or `amount <= 0` before any
record is created; otherwise create a pending transaction and mutate via
`Account.withdraw`; on insufficient funds the account is untouched and the
record is marked failed. -/
def BankSystem.withdraw (s : BankSystem) (account_id : Nat) (amount : ℚ)
    (description : String) : Bool × BankSystem :=
  match s.get_account_by_id account_id with
  | none => (false, s)
  | some account =>
    if amount ≤ 0 then (false, s)
    else
      let transaction :=
        Transaction.create_transaction s.next_tx_id account_id
          TransactionType.withdrawal amount description none s.now
      let r := account.withdraw amount
      if r.1 then
        (true,
          { s with
            accounts := dmodify account_id (fun _ => r.2) s.accounts
            transactions :=
              dinsert transaction.transaction_id
                transaction.complete_transaction s.transactions
            next_tx_id := s.next_tx_id + 1 })
      else
        (false,
          { s with
            transactions :=
              dinsert transaction.transaction_id
                transaction.fail_transaction s.transactions
            next_tx_id := s.next_tx_id + 1 })

/-- Source `BankSystem.transfer`: source resolved by internal id (any account),
destination by external account number (active accounts only).  The body of
`from_account.transfer_to(to_account, amount)` mutates the two stored objects
in place; this is modelled by a keyed debit of the source entry followed by a
credit of the entry the number scan found, which also captures the aliased
self-transfer case (debit and credit land on the same entry).  On success two
pre-completed records are stored: a `transfer` on the source referencing the
destination id, then a `deposit` on the destination referencing the source id. -/
def BankSystem.transfer (s : BankSystem) (from_account_id : Nat)
    (to_account_number : Nat) (amount : ℚ) (description : String) :
    Bool × BankSystem :=
  match s.get_account_by_id from_account_id,
        s.get_account_by_number to_account_number with
  | some from_account, some to_account =>
    if amount ≤ 0 then (false, s)
    else
      let transaction :=
        Transaction.create_transaction s.next_tx_id from_account_id
          TransactionType.transfer amount description
          (some to_account.account_id) s.now
      if amount ≤ 0 ∨ from_account.balance < amount then
        (false,
          { s with
            transactions :=
              dinsert transaction.transaction_id
                transaction.fail_transaction s.transactions
            next_tx_id := s.next_tx_id + 1 })
      else
        let accounts1 :=
          dmodify from_account_id
            (fun a => { a with balance := a.balance - amount }) s.accounts
        let accounts2 := credit_first_by_number to_account_number amount accounts1
        let deposit_transaction :=
          Transaction.create_transaction (s.next_tx_id + 1) to_account.account_id
            TransactionType.deposit amount
            (String.append "Transfer from " (toString from_account.account_number))
            (some from_account.account_id) s.now
        (true,
          { s with
            accounts := accounts2
            transactions :=
              dinsert deposit_transaction.transaction_id
                deposit_transaction.complete_transaction
                (dinsert transaction.transaction_id
                  transaction.complete_transaction s.transactions)
            next_tx_id := s.next_tx_id + 2 })
  | _, _ => (false, s)

/-- The sum in `get_system_stats`: total balance over active accounts. -/
def total_active_balance (accounts : List (Nat × Account)) : ℚ :=
  ((accounts.filter fun p => p.2.is_active).map fun p => p.2.balance).sum

/-! ### Operation sequences (for the balance invariant) -/

/-- One call into the ledger engine's mutating API. -/
inductive Op where
  | createAccount (user_id : Nat) (account_type : String) (initial_balance : ℚ)
  | deposit (account_id : Nat) (amount : ℚ) (description : String)
  | withdraw (account_id : Nat) (amount : ℚ) (description : String)
  | transfer (from_account_id to_account_number : Nat) (amount : ℚ)
      (description : String)

/-- Apply one operation, keeping only the state. -/
def BankSystem.apply (s : BankSystem) : Op → BankSystem
  | .createAccount u t b => (s.create_account u t b).2
  | .deposit a amt d => (s.deposit a amt d).2
  | .withdraw a amt d => (s.withdraw a amt d).2
  | .transfer f t amt d => (s.transfer f t amt d).2

/-- Run a sequence of operations. -/
def BankSystem.run (s : BankSystem) (ops : List Op) : BankSystem :=
  ops.foldl BankSystem.apply s

/-- Every stored account has a non-negative balance. -/
def BankSystem.balancesNonneg (s : BankSystem) : Prop :=
  ∀ p ∈ s.accounts, 0 ≤ p.2.balance

/-- Predicate: `createAccount` calls carry a non-negative initial balance (the other
operations are unrestricted). -/
def Op.nonneg_init : Op → Prop
  | .createAccount _ _ b => 0 ≤ b
  | _ => True

instance : DecidablePred Op.nonneg_init := by
  intro op
  cases op <;> simp [Op.nonneg_init] <;> infer_instance

/-! ### `get_transaction_summary` -/

structure TransactionSummary where
  period_days : Nat
  total_transactions : Nat
  total_deposits : ℚ
  total_withdrawals : ℚ
  total_transfers : ℚ
  net_flow : ℚ
deriving DecidableEq

/-- Python `sum(t.amount for t in l)`: Python's left-fold sum. -/
def sum_amounts (l : List Transaction) : ℚ :=
  l.foldl (fun acc t => acc + t.amount) 0

/-- The window filter `start_date <= t.created_at <= end_date` with
`end_date = now` and `start_date = now - timedelta(days=days)`. -/
def in_window (now : Int) (days : Nat) (t : Transaction) : Bool :=
  decide (now - (days : Int) ≤ t.created_at ∧ t.created_at ≤ now)

/-- Source `get_transaction_summary` at the level of the transaction values. -/
def transaction_summary (txs : List Transaction) (now : Int) (days : Nat) :
    TransactionSummary :=
  let recent := txs.filter (in_window now days)
  { period_days := days
    total_transactions := recent.length
    total_deposits :=
      sum_amounts (recent.filter fun t =>
        decide (t.transaction_type = TransactionType.deposit ∧
          t.status = TransactionStatus.completed))
    total_withdrawals :=
      sum_amounts (recent.filter fun t =>
        decide (t.transaction_type = TransactionType.withdrawal ∧
          t.status = TransactionStatus.completed))
    total_transfers :=
      sum_amounts (recent.filter fun t =>
        decide (t.transaction_type = TransactionType.transfer ∧
          t.status = TransactionStatus.completed))
    net_flow :=
      sum_amounts (recent.filter fun t =>
        decide (t.transaction_type = TransactionType.deposit ∧
          t.status = TransactionStatus.completed)) -
      sum_amounts (recent.filter fun t =>
        decide (t.transaction_type = TransactionType.withdrawal ∧
          t.status = TransactionStatus.completed)) }

/-- Source `BankSystem.get_transaction_summary`, iterating the store's values. -/
def BankSystem.get_transaction_summary (s : BankSystem) (days : Nat) :
    TransactionSummary :=
  transaction_summary (s.transactions.map Prod.snd) s.now days

/-! ### `utils/auth.py` -/

structure AuthManager where
  users : List (Nat × User)
  next_user_id : Nat
  now : Int
deriving DecidableEq

/-- Source `AuthManager.register_user`: scan ALL stored users (active and inactive)
for an exact username match; on a hit return failure without touching state,
otherwise create and store the new user. -/
def AuthManager.register_user (m : AuthManager)
    (username password email phone role : String) : Bool × AuthManager :=
  if m.users.any fun p => p.2.username = username then (false, m)
  else
    let new_user :=
      User.create_user m.next_user_id username password email phone role m.now
    (true,
      { m with
        users := dinsert new_user.user_id new_user m.users
        next_user_id := m.next_user_id + 1 })

/-! ### `utils/data_manager.py` — record (de)serialisation layer

`save_*` maps `to_dict` over a collection, `load_*` maps `from_dict` back.
ISO-8601 timestamp strings are modelled by the integer timestamps they encode
(`isoformat`/`fromisoformat` are mutually inverse); enum values are stored as
their lowercase strings, as in the JSON files. -/

/-- The dictionary produced by `User.to_dict`. -/
structure UserDict where
  user_id : Nat
  username : String
  email : String
  phone : String
  role : String
  password_hash : String
  created_at : Option Int
  last_login : Option Int
  is_active : Bool
deriving DecidableEq

def User.to_dict (u : User) : UserDict :=
  { user_id := u.user_id
    username := u.username
    email := u.email
    phone := u.phone
    role := u.role
    password_hash := u.password_hash
    created_at := some u.created_at
    last_login := u.last_login
    is_active := u.is_active }

/-- Source `User.from_dict`; a missing/null `created_at` makes `__init__` stamp the
current time, hence the `now` parameter. -/
def User.from_dict (now : Int) (d : UserDict) : User :=
  { user_id := d.user_id
    username := d.username
    email := d.email
    phone := d.phone
    role := d.role
    password_hash := d.password_hash
    created_at := d.created_at.getD now
    last_login := d.last_login
    is_active := d.is_active }

/-- The dictionary produced by `Account.to_dict`. -/
structure AccountDict where
  account_id : Nat
  user_id : Nat
  account_number : Nat
  account_type : String
  balance : ℚ
  created_at : Option Int
  is_active : Bool
  daily_transaction_limit : ℚ
  monthly_transaction_limit : ℚ
deriving DecidableEq

def Account.to_dict (a : Account) : AccountDict :=
  { account_id := a.account_id
    user_id := a.user_id
    account_number := a.account_number
    account_type := a.account_type
    balance := a.balance
    created_at := some a.created_at
    is_active := a.is_active
    daily_transaction_limit := a.daily_transaction_limit
    monthly_transaction_limit := a.monthly_transaction_limit }

def Account.from_dict (now : Int) (d : AccountDict) : Account :=
  { account_id := d.account_id
    user_id := d.user_id
    account_number := d.account_number
    account_type := d.account_type
    balance := d.balance
    created_at := d.created_at.getD now
    is_active := d.is_active
    daily_transaction_limit := d.daily_transaction_limit
    monthly_transaction_limit := d.monthly_transaction_limit }

/-- The dictionary produced by `Transaction.to_dict`; enum fields are their
string values. -/
structure TransactionDict where
  transaction_id : Nat
  account_id : Nat
  transaction_type : String
  amount : ℚ
  description : String
  target_account_id : Option Nat
  created_at : Option Int
  status : String
  reference_number : Nat
  fee : ℚ
deriving DecidableEq

def Transaction.to_dict (t : Transaction) : TransactionDict :=
  { transaction_id := t.transaction_id
    account_id := t.account_id
    transaction_type := t.transaction_type.value
    amount := t.amount
    description := t.description
    target_account_id := t.target_account_id
    created_at := some t.created_at
    status := t.status.value
    reference_number := t.reference_number
    fee := t.fee }

/-- Source `Transaction.from_dict`: the `TransactionType(...)` and
`TransactionStatus(...)` constructors raise `ValueError` on unknown strings,
modelled by `none`. -/
def Transaction.from_dict (now : Int) (d : TransactionDict) : Option Transaction := do
  let tt ← TransactionType.ofValue d.transaction_type
  let st ← TransactionStatus.ofValue d.status
  pure
    { transaction_id := d.transaction_id
      account_id := d.account_id
      transaction_type := tt
      amount := d.amount
      description := d.description
      target_account_id := d.target_account_id
      created_at := d.created_at.getD now
      status := st
      reference_number := d.reference_number
      fee := d.fee }

namespace DataManager

/-- Source `save_users`: serialise every record of the collection. -/
def save_users (users : List (Nat × User)) : List (Nat × UserDict) :=
  users.map fun p => (p.1, p.2.to_dict)

/-- The record-decoding loop of `load_users`. -/
def load_users (now : Int) (data : List (Nat × UserDict)) : List (Nat × User) :=
  data.map fun p => (p.1, User.from_dict now p.2)

def save_accounts (accounts : List (Nat × Account)) : List (Nat × AccountDict) :=
  accounts.map fun p => (p.1, p.2.to_dict)

def load_accounts (now : Int) (data : List (Nat × AccountDict)) :
    List (Nat × Account) :=
  data.map fun p => (p.1, Account.from_dict now p.2)

def save_transactions (transactions : List (Nat × Transaction)) :
    List (Nat × TransactionDict) :=
  transactions.map fun p => (p.1, p.2.to_dict)

/-- The record-decoding loop of `load_transactions`; `none` when some record
fails to decode. -/
def load_transactions (now : Int) (data : List (Nat × TransactionDict)) :
    Option (List (Nat × Transaction)) :=
  data.mapM fun p => (Transaction.from_dict now p.2).map fun t => (p.1, t)

end DataManager

/-! ### `utils/data_manager.py` — file layer and exception control flow

The `load_*` functions share one shape: missing file → `{}`; `json.load`
failure (`JSONDecodeError`) → caught → `{}`; decoding a record raising
`KeyError`/`ValueError` → caught → `{}`; any other exception — e.g. the
`AttributeError` from calling `.items()` on a parsed non-object, or a
`TypeError` from a wrongly-typed field — propagates to the caller.  The shape
is modelled once, parameterised by the per-record decoder. -/

/-- A parsed JSON value (the result of `json.load`). -/
inductive Json where
  | null
  | bool (b : Bool)
  | num (q : ℚ)
  | str (s : String)
  | arr (elems : List Json)
  | obj (fields : List (String × Json))

/-- Outcome of decoding one record (`User/Account/Transaction.from_dict`):
success, an exception of a caught class (`KeyError`/`ValueError`), or an
exception of an uncaught class (`TypeError`, `AttributeError`, ...). -/
inductive RecordOutcome (α : Type) where
  | ok (record : α)
  | caughtErr
  | uncaughtErr

/-- Durable state of one collection file. -/
inductive FileContent where
  | absent
  | malformed
  | parsed (j : Json)

/-- Result of a `load_*` call: a collection, or an exception escaping to the
caller. -/
inductive LoadResult (α : Type) where
  | ok (records : List (String × α))
  | raised
deriving DecidableEq

/-- The record loop inside the `try` block. -/
def load_loop {α : Type} (decode : String → Json → RecordOutcome α) :
    List (String × Json) → List (String × α) → LoadResult α
  | [], acc => .ok acc.reverse
  | (k, j) :: rest, acc =>
    match decode k j with
    | .ok r => load_loop decode rest ((k, r) :: acc)
    | .caughtErr => .ok []
    | .uncaughtErr => .raised

/-- The common shape of `load_users` / `load_accounts` / `load_transactions`:
missing file → empty; `json.load` failure → caught → empty; parsed non-object
→ `.items()` raises `AttributeError`, uncaught; parsed object → record loop. -/
def load_collection {α : Type} (decode : String → Json → RecordOutcome α) :
    FileContent → LoadResult α
  | .absent => .ok []
  | .malformed => .ok []
  | .parsed (.obj fields) => load_loop decode fields []
  | .parsed _ => .raised

/-- Instance note: `balancesNonneg` is a decidable scan of the store. -/
instance (s : BankSystem) : Decidable s.balancesNonneg :=
  inferInstanceAs (Decidable (∀ p ∈ s.accounts, 0 ≤ p.2.balance))

/-! ### Lemmas about the dict primitives -/

theorem dget_mem {α : Type} {k : Nat} {a : α} :
    ∀ {l : List (Nat × α)}, dget k l = some a → (k, a) ∈ l
  | (k', v) :: rest, h => by
    rw [dget] at h
    split at h
    · next hk =>
      injection h with h
      exact hk ▸ h ▸ List.mem_cons_self _ _
    · next hk => exact List.mem_cons_of_mem _ (dget_mem h)

theorem mem_dinsert {α : Type} {k : Nat} {v p : _} :
    ∀ {l : List (Nat × α)}, p ∈ dinsert k v l → p = (k, v) ∨ p ∈ l
  | [], h => by
    simp only [dinsert, List.mem_singleton] at h
    exact Or.inl h
  | (k', v') :: rest, h => by
    by_cases hk : k' = k
    · simp only [dinsert, if_pos hk, List.mem_cons] at h
      rcases h with h | h
      · exact Or.inl h
      · exact Or.inr (List.mem_cons_of_mem _ h)
    · simp only [dinsert, if_neg hk, List.mem_cons] at h
      rcases h with h | h
      · exact Or.inr (h ▸ List.mem_cons_self _ _)
      · rcases mem_dinsert h with h' | h'
        · exact Or.inl h'
        · exact Or.inr (List.mem_cons_of_mem _ h')

theorem dinsert_eq_append {α : Type} {k : Nat} {v : α} :
    ∀ {l : List (Nat × α)}, (∀ p ∈ l, p.1 ≠ k) → dinsert k v l = l ++ [(k, v)]
  | [], _ => rfl
  | (k', v') :: rest, h => by
    have hk : k' ≠ k := h (k', v') (List.mem_cons_self _ _)
    simp only [dinsert, if_neg hk, List.cons_append, List.cons.injEq, true_and]
    exact dinsert_eq_append fun p hp => h p (List.mem_cons_of_mem _ hp)

theorem mem_dmodify_first {α : Type} {k : Nat} {f : α → α} {a : α} {p : Nat × α} :
    ∀ {l : List (Nat × α)}, dget k l = some a → p ∈ dmodify k f l →
      p ∈ l ∨ p = (k, f a)
  | (k', v) :: rest, hget, hp => by
    rw [dget] at hget
    rw [dmodify] at hp
    split at hget
    · next hk =>
      injection hget with hget
      rw [if_pos hk, List.mem_cons] at hp
      rcases hp with hp | hp
      · exact Or.inr (by rw [hp, hk, hget])
      · exact Or.inl (List.mem_cons_of_mem _ hp)
    · next hk =>
      rw [if_neg hk, List.mem_cons] at hp
      rcases hp with hp | hp
      · exact Or.inl (hp ▸ List.mem_cons_self _ _)
      · rcases mem_dmodify_first hget hp with h' | h'
        · exact Or.inl (List.mem_cons_of_mem _ h')
        · exact Or.inr h'

theorem dget_dmodify_self {α : Type} {k : Nat} {f : α → α} {a : α} :
    ∀ {l : List (Nat × α)}, dget k l = some a →
      dget k (dmodify k f l) = some (f a)
  | (k', v) :: rest, hget => by
    rw [dget] at hget
    rw [dmodify]
    split at hget
    · next hk =>
      injection hget with hget
      rw [if_pos hk, dget, if_pos hk, hget]
    · next hk =>
      rw [if_neg hk, dget, if_neg hk]
      exact dget_dmodify_self hget

theorem dget_dmodify_ne {α : Type} {k k' : Nat} {f : α → α} (hk : k ≠ k') :
    ∀ {l : List (Nat × α)}, dget k (dmodify k' f l) = dget k l
  | [] => rfl
  | (j, v) :: rest => by
    rw [dmodify]
    by_cases hj : j = k'
    · rw [if_pos hj, dget, dget, if_neg (by rw [hj]; exact fun h => hk h.symm),
        if_neg (by rw [hj]; exact fun h => hk h.symm)]
    · rw [if_neg hj, dget, dget]
      by_cases hjk : j = k
      · rw [if_pos hjk, if_pos hjk]
      · rw [if_neg hjk, if_neg hjk]
        exact dget_dmodify_ne hk

theorem mem_credit {n : Nat} {δ : ℚ} {p : Nat × Account} :
    ∀ {l : List (Nat × Account)}, p ∈ credit_first_by_number n δ l →
      p ∈ l ∨ ∃ q ∈ l, (q.2.account_number = n ∧ q.2.is_active = true) ∧
        p = (q.1, { q.2 with balance := q.2.balance + δ })
  | (k, a) :: rest, hp => by
    by_cases hm : a.account_number = n ∧ a.is_active = true
    · simp only [credit_first_by_number, if_pos hm, List.mem_cons] at hp
      rcases hp with hp | hp
      · exact Or.inr ⟨(k, a), List.mem_cons_self _ _, hm, hp⟩
      · exact Or.inl (List.mem_cons_of_mem _ hp)
    · simp only [credit_first_by_number, if_neg hm, List.mem_cons] at hp
      rcases hp with hp | hp
      · exact Or.inl (hp ▸ List.mem_cons_self _ _)
      · rcases mem_credit hp with h' | ⟨q, hq, hq'⟩
        · exact Or.inl (List.mem_cons_of_mem _ h')
        · exact Or.inr ⟨q, List.mem_cons_of_mem _ hq, hq'⟩

/-! ### Claim C1 machinery: the mutating operations preserve balance ≥ 0 -/

theorem balancesNonneg_create {s : BankSystem} {u : Nat} {t : String} {b : ℚ}
    (hs : s.balancesNonneg) (hb : 0 ≤ b) :
    ((s.create_account u t b).2).balancesNonneg := by
  intro p hp
  unfold BankSystem.create_account at hp
  by_cases h0 : 0 < b <;> simp only [if_pos, if_neg, h0, if_true, if_false] at hp <;>
    rcases mem_dinsert hp with h | h
  · subst h; exact hb
  · exact hs p h
  · subst h; exact hb
  · exact hs p h

theorem balancesNonneg_deposit {s : BankSystem} {k : Nat} {amt : ℚ} {d : String}
    (hs : s.balancesNonneg) : ((s.deposit k amt d).2).balancesNonneg := by
  unfold BankSystem.deposit
  cases hget : s.get_account_by_id k with
  | none => exact hs
  | some account =>
    by_cases h0 : amt ≤ 0
    · simp only [if_pos h0]; exact hs
    · simp only [if_neg h0]
      have hr : account.deposit amt =
          (true, { account with balance := account.balance + amt }) := by
        simp [Account.deposit, h0]
      simp only [hr]
      intro p hp
      rcases mem_dmodify_first (f := fun _ =>
          { account with balance := account.balance + amt }) hget hp with h | h
      · exact hs p h
      · subst h
        have h1 : 0 ≤ account.balance := hs _ (dget_mem hget)
        have h2 : 0 < amt := lt_of_not_ge h0
        simpa using add_nonneg h1 h2.le

theorem balancesNonneg_withdraw {s : BankSystem} {k : Nat} {amt : ℚ} {d : String}
    (hs : s.balancesNonneg) : ((s.withdraw k amt d).2).balancesNonneg := by
  unfold BankSystem.withdraw
  cases hget : s.get_account_by_id k with
  | none => exact hs
  | some account =>
    by_cases h0 : amt ≤ 0
    · simp only [if_pos h0]; exact hs
    · simp only [if_neg h0]
      by_cases hg : amt ≤ 0 ∨ account.balance < amt
      · have hr : account.withdraw amt = (false, account) := by
          simp only [Account.withdraw, if_pos hg]
        simp only [hr]
        exact hs
      · have hr : account.withdraw amt =
            (true, { account with balance := account.balance - amt }) := by
          simp only [Account.withdraw, if_neg hg]
        simp only [hr]
        intro p hp
        rcases mem_dmodify_first (f := fun _ =>
            { account with balance := account.balance - amt }) hget hp with h | h
        · exact hs p h
        · subst h
          push_neg at hg
          simpa using sub_nonneg.mpr hg.2

theorem balancesNonneg_transfer {s : BankSystem} {k n : Nat} {amt : ℚ} {d : String}
    (hs : s.balancesNonneg) : ((s.transfer k n amt d).2).balancesNonneg := by
  unfold BankSystem.transfer
  cases hget : s.get_account_by_id k with
  | none => exact hs
  | some from_account =>
    cases hto : s.get_account_by_number n with
    | none => exact hs
    | some to_account =>
      by_cases h0 : amt ≤ 0
      · simp only [if_pos h0]; exact hs
      · simp only [if_neg h0]
        by_cases hg : amt ≤ 0 ∨ from_account.balance < amt
        · simp only [if_pos hg]; exact hs
        · simp only [if_neg hg]
          intro p hp
          push_neg at hg
          have h2 : 0 < amt := lt_of_not_ge h0
          have hs1 : ∀ q ∈ dmodify k
              (fun a => { a with balance := a.balance - amt }) s.accounts,
              0 ≤ q.2.balance := by
            intro q hq
            rcases mem_dmodify_first (f := fun a =>
                { a with balance := a.balance - amt }) hget hq with h | h
            · exact hs q h
            · subst h
              simpa using sub_nonneg.mpr hg.2
          rcases mem_credit hp with h | ⟨q, hq, _, hpq⟩
          · exact hs1 p h
          · subst hpq
            have := hs1 q hq
            simpa using add_nonneg this h2.le

theorem balancesNonneg_apply {s : BankSystem} {op : Op}
    (hs : s.balancesNonneg) (hop : op.nonneg_init) :
    (s.apply op).balancesNonneg := by
  cases op with
  | createAccount u t b => exact balancesNonneg_create hs hop
  | deposit a amt d => exact balancesNonneg_deposit hs
  | withdraw a amt d => exact balancesNonneg_withdraw hs
  | transfer f t amt d => exact balancesNonneg_transfer hs

/-! ### Lookup, credit and total-balance lemmas (for the transfer claims) -/

/-- When `b` is the unique active holder of number `n` and is stored under `k`,
the `get_account_by_number` scan finds exactly `b`. -/
theorem first_with_number_eq {n k : Nat} {b : Account}
    (hbn : b.account_number = n) (hact : b.is_active = true) :
    ∀ {l : List (Nat × Account)},
      (∀ p ∈ l, p.2.account_number = n → p.2.is_active = true → p = (k, b)) →
      dget k l = some b → first_with_number n l = some b
  | (k', v) :: rest, huniq, hget => by
    rw [first_with_number]
    by_cases hm : v.account_number = n ∧ v.is_active = true
    · rw [if_pos hm]
      have he := huniq (k', v) (List.mem_cons_self _ _) hm.1 hm.2
      exact congrArg some (congrArg Prod.snd he)
    · rw [if_neg hm]
      rw [dget] at hget
      by_cases hk : k' = k
      · rw [if_pos hk] at hget
        injection hget with hget
        exact absurd ⟨hget ▸ hbn, hget ▸ hact⟩ hm
      · rw [if_neg hk] at hget
        exact first_with_number_eq hbn hact
          (fun p hp => huniq p (List.mem_cons_of_mem _ hp)) hget

/-- Crediting the first active holder of number `n` does not disturb lookups
under a key no active holder of `n` carries. -/
theorem dget_credit_of_ne {n k : Nat} {δ : ℚ} :
    ∀ {l : List (Nat × Account)},
      (∀ p ∈ l, p.2.account_number = n → p.2.is_active = true → p.1 ≠ k) →
      dget k (credit_first_by_number n δ l) = dget k l
  | [], _ => rfl
  | (k', v) :: rest, h => by
    rw [credit_first_by_number]
    by_cases hm : v.account_number = n ∧ v.is_active = true
    · have hk : k' ≠ k := h (k', v) (List.mem_cons_self _ _) hm.1 hm.2
      rw [if_pos hm, dget, dget, if_neg hk, if_neg hk]
    · rw [if_neg hm, dget, dget]
      by_cases hk : k' = k
      · rw [if_pos hk, if_pos hk]
      · rw [if_neg hk, if_neg hk]
        exact dget_credit_of_ne fun p hp => h p (List.mem_cons_of_mem _ hp)

/-- Crediting the first active holder of number `n` adds `δ` to the unique
active holder's stored balance. -/
theorem dget_credit_self {n k : Nat} {δ : ℚ} {b : Account}
    (hbn : b.account_number = n) (hact : b.is_active = true) :
    ∀ {l : List (Nat × Account)},
      (∀ p ∈ l, p.2.account_number = n → p.2.is_active = true → p = (k, b)) →
      dget k l = some b →
      dget k (credit_first_by_number n δ l) =
        some { b with balance := b.balance + δ }
  | (k', v) :: rest, huniq, hget => by
    rw [credit_first_by_number]
    rw [dget] at hget
    by_cases hm : v.account_number = n ∧ v.is_active = true
    · have he := huniq (k', v) (List.mem_cons_self _ _) hm.1 hm.2
      have hk : k' = k := congrArg Prod.fst he
      have hv : v = b := congrArg Prod.snd he
      rw [if_pos hm, dget, if_pos hk, hv]
    · rw [if_neg hm]
      by_cases hk : k' = k
      · rw [if_pos hk] at hget
        injection hget with hget
        exact absurd ⟨hget ▸ hbn, hget ▸ hact⟩ hm
      · rw [if_neg hk] at hget
        rw [dget, if_neg hk]
        exact dget_credit_self hbn hact
          (fun p hp => huniq p (List.mem_cons_of_mem _ hp)) hget

/-- A transfer whose destination scan resolves to the debited source entry
itself (`transfer` to one's own account number) leaves the store unchanged:
the debit and credit land on the same entry and cancel. -/
theorem credit_debit_cancel {k : Nat} {amt : ℚ} {A : Account}
    (hact : A.is_active = true) :
    ∀ {l : List (Nat × Account)},
      (∀ p ∈ l, p.2.account_number = A.account_number →
        p.2.is_active = true → p = (k, A)) →
      dget k l = some A →
      credit_first_by_number A.account_number amt
        (dmodify k (fun a => { a with balance := a.balance - amt }) l) = l
  | (k', v) :: rest, huniq, hget => by
    rw [dmodify]
    rw [dget] at hget
    by_cases hk : k' = k
    · rw [if_pos hk] at hget
      injection hget with hv
      rw [if_pos hk, credit_first_by_number, hv, if_pos ⟨rfl, hact⟩]
      have hbal : A.balance - amt + amt = A.balance := by ring
      simp only [hbal]
    · rw [if_neg hk] at hget
      rw [if_neg hk, credit_first_by_number]
      have hm : ¬ (v.account_number = A.account_number ∧ v.is_active = true) := by
        intro hm
        exact hk (congrArg Prod.fst
          (huniq (k', v) (List.mem_cons_self _ _) hm.1 hm.2))
      rw [if_neg hm]
      exact congrArg _ (credit_debit_cancel hact
        (fun p hp => huniq p (List.mem_cons_of_mem _ hp)) hget)

theorem total_active_balance_cons (p : Nat × Account) (l : List (Nat × Account)) :
    total_active_balance (p :: l) =
      (if p.2.is_active = true then p.2.balance else 0) + total_active_balance l := by
  by_cases h : p.2.is_active = true <;>
    simp [total_active_balance, List.filter_cons, h]

/-- Debiting the active account stored under `k` lowers the active total by
the debited amount. -/
theorem total_dmodify_sub {k : Nat} {amt : ℚ} {A : Account}
    (hact : A.is_active = true) :
    ∀ {l : List (Nat × Account)}, dget k l = some A →
      total_active_balance
        (dmodify k (fun a => { a with balance := a.balance - amt }) l) =
      total_active_balance l - amt
  | (k', v) :: rest, hget => by
    rw [dmodify]
    rw [dget] at hget
    by_cases hk : k' = k
    · rw [if_pos hk] at hget
      injection hget with hv
      rw [if_pos hk, total_active_balance_cons, total_active_balance_cons, hv]
      simp only [hact, if_pos]
      ring
    · rw [if_neg hk] at hget
      rw [if_neg hk, total_active_balance_cons, total_active_balance_cons,
        total_dmodify_sub hact hget]
      ring

/-- Crediting the first active holder of number `n` raises the active total by
the credited amount, provided some active holder exists. -/
theorem total_credit_add {n : Nat} {δ : ℚ} :
    ∀ {l : List (Nat × Account)},
      (∃ p ∈ l, p.2.account_number = n ∧ p.2.is_active = true) →
      total_active_balance (credit_first_by_number n δ l) =
        total_active_balance l + δ
  | (k', v) :: rest, hex => by
    rw [credit_first_by_number]
    by_cases hm : v.account_number = n ∧ v.is_active = true
    · rw [if_pos hm, total_active_balance_cons, total_active_balance_cons]
      simp only [hm.2, if_pos]
      ring
    · rw [if_neg hm, total_active_balance_cons, total_active_balance_cons]
      rcases hex with ⟨p, hp, hpn⟩
      rcases List.mem_cons.mp hp with hp | hp
      · rw [hp] at hpn
        exact absurd hpn hm
      · rw [total_credit_add ⟨p, hp, hpn⟩]
        ring

/-- Two fresh sequential inserts into the transaction store are appends. -/
theorem dinsert_two_fresh {l : List (Nat × Transaction)} {nid : Nat}
    (hfresh : ∀ p ∈ l, p.1 < nid) (t1 t2 : Transaction) :
    dinsert (nid + 1) t2 (dinsert nid t1 l) = l ++ [(nid, t1), (nid + 1, t2)] := by
  rw [dinsert_eq_append fun p hp => Nat.ne_of_lt (hfresh p hp)]
  rw [dinsert_eq_append]
  · simp
  · intro p hp
    rcases List.mem_append.mp hp with hp | hp
    · exact Nat.ne_of_lt (Nat.lt_succ_of_lt (hfresh p hp))
    · simp only [List.mem_singleton] at hp
      subst hp
      exact Nat.ne_of_lt (Nat.lt_succ_self nid)

/-! ### Concrete fixtures -/

/-- An empty engine state. -/
def bank0 : BankSystem :=
  { accounts := [], transactions := [], next_account_id := 0, next_tx_id := 0,
    now := 0 }

/-- An active account used by the self-transfer scenario. -/
def accW : Account :=
  { account_id := 1, user_id := 7, account_number := 42,
    account_type := "savings", balance := 100, created_at := 0,
    is_active := true, daily_transaction_limit := 50000,
    monthly_transaction_limit := 500000 }

/-- A state holding exactly `accW`. -/
def bankW : BankSystem :=
  { accounts := [(1, accW)], transactions := [], next_account_id := 2,
    next_tx_id := 10, now := 0 }

/-! ### Claim C1 -/

/-- C1 counterexample: `create_account` performs no validation of
`initial_balance`, so a single committed `createAccount` with a negative
initial balance drives a balance below zero starting from a state (the empty
store) in which every balance is non-negative.  The quantified claim is
therefore false as stated. -/
theorem create_account_negative_initial_balance_refuted :
    bank0.balancesNonneg ∧
    ¬ (bank0.run [Op.createAccount 7 "savings" (-1)]).balancesNonneg := by
  decide

/-- C1 (amended): starting from any state in which all balances are
non-negative, every account's balance stays non-negative after any sequence of
committed operations, provided each `createAccount` in the sequence carries a
non-negative initial balance (deposit, withdraw and transfer are
unrestricted). -/
theorem balances_nonneg_of_run (s : BankSystem) (ops : List Op)
    (hs : s.balancesNonneg) (hops : ∀ op ∈ ops, op.nonneg_init) :
    (s.run ops).balancesNonneg := by
  induction ops generalizing s with
  | nil => exact hs
  | cons op rest ih =>
    exact ih _ (balancesNonneg_apply hs (hops op (List.mem_cons_self _ _)))
      (fun o ho => hops o (List.mem_cons_of_mem _ ho))

/-- C1 witness: the invariant theorem applied to a concrete run mixing all four
operations. -/
theorem balances_nonneg_of_run_witness :
    (bank0.run [Op.createAccount 7 "savings" 5, Op.deposit 0 3 "pay",
      Op.withdraw 0 2 "atm", Op.transfer 0 1000000000 1 ""]).balancesNonneg :=
  balances_nonneg_of_run bank0 _ (by decide) (by decide)

/-! ### Claim C2 -/

/-- C2 counterexample: `transfer` has no same-account check.  With the
destination account number equal to the source's own number the operation
returns `True` (the claim says it fails) and grows the transaction store by
two records (the claim says the state is unchanged). -/
theorem transfer_to_self_refuted :
    (bankW.transfer 1 42 50 "").1 = true ∧
    (bankW.transfer 1 42 50 "").2.transactions.length =
      bankW.transactions.length + 2 := by
  decide

/-- C2 (amended): for an active account stored under its own id, a transfer to
its own account number with `0 < amount ≤ balance` succeeds, leaves the
account store entirely unchanged (the in-place debit and credit hit the same
object and cancel), and appends exactly two completed records on the account —
one `transfer` and one `deposit`, each carrying the account's own id as the
counterpart. -/
theorem transfer_to_self_spec (s : BankSystem) (k : Nat) (A : Account)
    (amount : ℚ) (description : String)
    (hget : dget k s.accounts = some A)
    (hact : A.is_active = true)
    (hid : A.account_id = k)
    (huniq : ∀ p ∈ s.accounts, p.2.account_number = A.account_number →
      p.2.is_active = true → p = (k, A))
    (hfresh : ∀ p ∈ s.transactions, p.1 < s.next_tx_id)
    (hpos : 0 < amount) (hle : amount ≤ A.balance) :
    (s.transfer k A.account_number amount description).1 = true ∧
    (s.transfer k A.account_number amount description).2.accounts = s.accounts ∧
    ∃ t₁ t₂ : Transaction,
      (s.transfer k A.account_number amount description).2.transactions =
        s.transactions ++ [(s.next_tx_id, t₁), (s.next_tx_id + 1, t₂)] ∧
      t₁.transaction_type = TransactionType.transfer ∧ t₁.account_id = k ∧
      t₁.target_account_id = some k ∧ t₁.amount = amount ∧
      t₁.status = TransactionStatus.completed ∧
      t₂.transaction_type = TransactionType.deposit ∧ t₂.account_id = k ∧
      t₂.target_account_id = some k ∧ t₂.amount = amount ∧
      t₂.status = TransactionStatus.completed := by
  have hby : s.get_account_by_id k = some A := hget
  have hnum : s.get_account_by_number A.account_number = some A :=
    first_with_number_eq rfl hact huniq hget
  have hg : ¬ (amount ≤ 0 ∨ A.balance < amount) := by
    push_neg
    exact ⟨hpos, hle⟩
  unfold BankSystem.transfer
  rw [hby, hnum]
  simp only [if_neg (not_le.mpr hpos), if_neg hg, Transaction.create_transaction,
    Transaction.complete_transaction]
  rw [hid]
  exact ⟨trivial, credit_debit_cancel hact huniq hget,
    _, _, dinsert_two_fresh hfresh _ _, rfl, rfl, rfl, rfl, rfl, rfl, rfl, rfl,
    rfl, rfl⟩

/-- C2 witness: the amended self-transfer theorem applied to a concrete
one-account state. -/
theorem transfer_to_self_spec_witness :
    (bankW.transfer 1 42 50 "").2.accounts = bankW.accounts :=
  (transfer_to_self_spec bankW 1 accW 50 "" rfl rfl rfl (by decide) (by decide)
    (by decide) (by decide)).2.1

/-! ### Claim C3 -/

/-- Source account for the inactive-destination scenario. -/
def accS : Account :=
  { account_id := 1, user_id := 7, account_number := 11,
    account_type := "savings", balance := 100, created_at := 0,
    is_active := true, daily_transaction_limit := 50000,
    monthly_transaction_limit := 500000 }

/-- A deactivated destination account. -/
def accT : Account :=
  { account_id := 2, user_id := 8, account_number := 22,
    account_type := "checking", balance := 5, created_at := 0,
    is_active := false, daily_transaction_limit := 50000,
    monthly_transaction_limit := 500000 }

/-- A state holding the active `accS` and the deactivated `accT`. -/
def bankST : BankSystem :=
  { accounts := [(1, accS), (2, accT)], transactions := [],
    next_account_id := 3, next_tx_id := 0, now := 0 }

/-- C3 counterexample: the claim quantifies over every pair of distinct
accounts, but `get_account_by_number` resolves active accounts only, so a
transfer toward a stored-but-deactivated destination returns `False` even
though the two accounts are distinct and the amount is within the source's
balance. -/
theorem transfer_distinct_accounts_refuted :
    accS ≠ accT ∧ (0 : ℚ) < 50 ∧ (50 : ℚ) ≤ accS.balance ∧
    (bankST.transfer 1 accT.account_number 50 "").1 = false := by
  decide

/-- C3 (amended): for two distinct ACTIVE accounts `A` (stored under `kA`) and
`B` (stored under `kB`, the unique active holder of its account number) and
any amount with `0 < amount ≤ balance(A)`, the transfer succeeds, debits `A`
by the amount, credits `B` by the amount, appends exactly one completed
`transfer` record on `A` carrying `B`'s id and one completed `deposit` record
on `B` carrying `A`'s id, and preserves the total balance over active
accounts. -/
theorem transfer_between_active_accounts_spec (s : BankSystem) (kA kB : Nat)
    (A B : Account) (amount : ℚ) (description : String)
    (hgA : dget kA s.accounts = some A) (hgB : dget kB s.accounts = some B)
    (hidA : A.account_id = kA) (hidB : B.account_id = kB)
    (hactA : A.is_active = true) (hactB : B.is_active = true)
    (hne : kA ≠ kB)
    (huniq : ∀ p ∈ s.accounts, p.2.account_number = B.account_number →
      p.2.is_active = true → p = (kB, B))
    (hfresh : ∀ p ∈ s.transactions, p.1 < s.next_tx_id)
    (hpos : 0 < amount) (hle : amount ≤ A.balance) :
    (s.transfer kA B.account_number amount description).1 = true ∧
    dget kA (s.transfer kA B.account_number amount description).2.accounts =
      some { A with balance := A.balance - amount } ∧
    dget kB (s.transfer kA B.account_number amount description).2.accounts =
      some { B with balance := B.balance + amount } ∧
    total_active_balance
        (s.transfer kA B.account_number amount description).2.accounts =
      total_active_balance s.accounts ∧
    ∃ t₁ t₂ : Transaction,
      (s.transfer kA B.account_number amount description).2.transactions =
        s.transactions ++ [(s.next_tx_id, t₁), (s.next_tx_id + 1, t₂)] ∧
      t₁.transaction_type = TransactionType.transfer ∧ t₁.account_id = kA ∧
      t₁.target_account_id = some kB ∧ t₁.amount = amount ∧
      t₁.status = TransactionStatus.completed ∧
      t₂.transaction_type = TransactionType.deposit ∧ t₂.account_id = kB ∧
      t₂.target_account_id = some kA ∧ t₂.amount = amount ∧
      t₂.status = TransactionStatus.completed := by
  have hby : s.get_account_by_id kA = some A := hgA
  have hnum : s.get_account_by_number B.account_number = some B :=
    first_with_number_eq rfl hactB huniq hgB
  have hg : ¬ (amount ≤ 0 ∨ A.balance < amount) := by
    push_neg
    exact ⟨hpos, hle⟩
  -- A's number differs from B's: otherwise uniqueness of B's number would
  -- collapse the two distinct entries.
  have hAB : A.account_number ≠ B.account_number := by
    intro h
    exact hne (congrArg Prod.fst (huniq (kA, A) (dget_mem hgA) h hactA))
  -- facts about the debited store
  have hgA1 : dget kA
      (dmodify kA (fun a => { a with balance := a.balance - amount })
        s.accounts) = some { A with balance := A.balance - amount } :=
    dget_dmodify_self hgA
  have hgB1 : dget kB
      (dmodify kA (fun a => { a with balance := a.balance - amount })
        s.accounts) = some B := by
    rw [dget_dmodify_ne (fun h => hne h.symm)]
    exact hgB
  have huniq1 : ∀ p ∈ dmodify kA
      (fun a => { a with balance := a.balance - amount }) s.accounts,
      p.2.account_number = B.account_number → p.2.is_active = true →
        p = (kB, B) := by
    intro p hp hn ha
    rcases mem_dmodify_first hgA hp with hmem | hmem
    · exact huniq p hmem hn ha
    · rw [hmem] at hn
      exact absurd hn hAB
  unfold BankSystem.transfer
  rw [hby, hnum]
  simp only [if_neg (not_le.mpr hpos), if_neg hg, Transaction.create_transaction,
    Transaction.complete_transaction]
  refine ⟨trivial, ?_, ?_, ?_, _, _, dinsert_two_fresh hfresh _ _, rfl, rfl,
    ?_, rfl, rfl, rfl, ?_, ?_, rfl, rfl⟩
  · rw [dget_credit_of_ne]
    · exact hgA1
    · intro p hp hn ha
      rw [huniq1 p hp hn ha]
      exact fun h => hne h.symm
  · exact dget_credit_self rfl hactB huniq1 hgB1
  · rw [total_credit_add ⟨(kB, B), dget_mem hgB1, rfl, hactB⟩,
      total_dmodify_sub hactA hgA]
    ring
  · rw [hidB]
  · rw [hidB]
  · rw [hidA]

/-- An active destination account with the same shape as `accT`. -/
def accB : Account :=
  { account_id := 2, user_id := 8, account_number := 22,
    account_type := "checking", balance := 5, created_at := 0,
    is_active := true, daily_transaction_limit := 50000,
    monthly_transaction_limit := 500000 }

/-- A state holding the two active accounts `accS` and `accB`. -/
def bankAB : BankSystem :=
  { accounts := [(1, accS), (2, accB)], transactions := [],
    next_account_id := 3, next_tx_id := 0, now := 0 }

/-- C3 witness: the amended transfer theorem applied to a two-account state in
which both accounts are active. -/
theorem transfer_between_active_accounts_spec_witness :
    dget 1 (bankAB.transfer 1 accB.account_number 50 "").2.accounts =
      some { accS with balance := accS.balance - 50 } ∧
    total_active_balance (bankAB.transfer 1 accB.account_number 50 "").2.accounts =
      total_active_balance bankAB.accounts :=
  ⟨(transfer_between_active_accounts_spec bankAB 1 2 accS accB 50 "" rfl rfl
      rfl rfl rfl rfl (by decide) (by decide) (by decide) (by decide)
      (by decide)).2.1,
   (transfer_between_active_accounts_spec bankAB 1 2 accS accB 50 "" rfl rfl
      rfl rfl rfl rfl (by decide) (by decide) (by decide) (by decide)
      (by decide)).2.2.2.1⟩

/-! ### Claim C4 -/

/-- C4 (confirmed): withdrawing more than the balance from an existing account
returns `False`, leaves the account store untouched, and appends exactly one
`withdrawal` record with status `failed`. -/
theorem withdraw_insufficient_funds_spec (s : BankSystem) (k : Nat)
    (a : Account) (amount : ℚ) (description : String)
    (hget : dget k s.accounts = some a)
    (hfresh : ∀ p ∈ s.transactions, p.1 < s.next_tx_id)
    (hpos : 0 < amount) (hover : a.balance < amount) :
    (s.withdraw k amount description).1 = false ∧
    (s.withdraw k amount description).2.accounts = s.accounts ∧
    (s.withdraw k amount description).2.transactions =
      s.transactions ++ [(s.next_tx_id,
        { transaction_id := s.next_tx_id, account_id := k,
          transaction_type := TransactionType.withdrawal, amount := amount,
          description := description, target_account_id := none,
          created_at := s.now, status := TransactionStatus.failed,
          reference_number := 100000 + s.next_tx_id, fee := 0 })] := by
  have hby : s.get_account_by_id k = some a := hget
  have hr : a.withdraw amount = (false, a) := by
    simp only [Account.withdraw, if_pos (Or.inr hover)]
  unfold BankSystem.withdraw
  rw [hby]
  simp only [if_neg (not_le.mpr hpos), hr, Bool.false_eq_true, if_false,
    Transaction.create_transaction, Transaction.fail_transaction]
  exact ⟨trivial, trivial,
    by rw [dinsert_eq_append fun p hp => Nat.ne_of_lt (hfresh p hp)]⟩

/-- C4 witness: the insufficient-funds theorem applied to a concrete
overdrawn withdrawal. -/
theorem withdraw_insufficient_funds_spec_witness :
    (bankW.withdraw 1 500 "").1 = false ∧
    (bankW.withdraw 1 500 "").2.accounts = bankW.accounts :=
  ⟨(withdraw_insufficient_funds_spec bankW 1 accW 500 "" rfl (by decide)
      (by decide) (by decide)).1,
   (withdraw_insufficient_funds_spec bankW 1 accW 500 "" rfl (by decide)
      (by decide) (by decide)).2.1⟩

/-! ### Claim C5 -/

/-- C5 (confirmed): a deposit with a non-positive amount, or to an unknown
account id, returns `False` before any transaction record is created: the
entire engine state is unchanged. -/
theorem deposit_invalid_spec (s : BankSystem) (k : Nat) (amount : ℚ)
    (description : String)
    (h : amount ≤ 0 ∨ dget k s.accounts = none) :
    (s.deposit k amount description).1 = false ∧
    (s.deposit k amount description).2 = s := by
  unfold BankSystem.deposit
  rcases h with h | h
  · cases hby : s.get_account_by_id k with
    | none => exact ⟨rfl, rfl⟩
    | some account =>
      simp only [if_pos h]
      exact ⟨trivial, trivial⟩
  · have hby : s.get_account_by_id k = none := h
    rw [hby]
    exact ⟨rfl, rfl⟩

/-- C5 witness: the invalid-deposit theorem applied to a zero-amount deposit
and to a missing account id. -/
theorem deposit_invalid_spec_witness :
    ((bankW.deposit 1 0 "").1 = false ∧ (bankW.deposit 1 0 "").2 = bankW) ∧
    ((bankW.deposit 99 5 "").1 = false ∧ (bankW.deposit 99 5 "").2 = bankW) :=
  ⟨deposit_invalid_spec bankW 1 0 "" (Or.inl (by decide)),
   deposit_invalid_spec bankW 99 5 "" (Or.inr (by decide))⟩

/-! ### Claim C10 -/

/-- The `get_account_by_number` scan only ever returns active accounts, with
the requested number. -/
theorem first_with_number_active {n : Nat} :
    ∀ {l : List (Nat × Account)} {b : Account},
      first_with_number n l = some b →
      b.is_active = true ∧ b.account_number = n
  | (k, a) :: rest, b, h => by
    rw [first_with_number] at h
    split at h
    · next hm =>
      injection h with h
      subst h
      exact ⟨hm.2, hm.1⟩
    · next hm => exact first_with_number_active h

/-- C10 (confirmed): the mutating money operations never consult the source
account's active flag — a deactivated stored account accepts deposits, and
withdrawals/transfers out of it succeed whenever the amount is within its
balance and (for transfer) the destination number resolves; only the
destination lookup by account number is restricted to active accounts, while
lookup by internal id returns any stored account. -/
theorem inactive_account_operations_spec (s : BankSystem) (k : Nat)
    (A : Account) (n : Nat) (amount : ℚ) (d : String)
    (hget : dget k s.accounts = some A)
    (hinact : A.is_active = false) :
    (0 < amount → (s.deposit k amount d).1 = true) ∧
    (0 < amount → amount ≤ A.balance → (s.withdraw k amount d).1 = true) ∧
    (0 < amount → amount ≤ A.balance →
      (∃ B, s.get_account_by_number n = some B) →
      (s.transfer k n amount d).1 = true) ∧
    (∀ m B, s.get_account_by_number m = some B →
      B.is_active = true ∧ B.account_number = m) ∧
    s.get_account_by_id k = some A := by
  have hby : s.get_account_by_id k = some A := hget
  refine ⟨?_, ?_, ?_, ?_, hby⟩
  · intro hpos
    have hr : A.deposit amount =
        (true, { A with balance := A.balance + amount }) := by
      simp only [Account.deposit, if_neg (not_le.mpr hpos)]
    unfold BankSystem.deposit
    rw [hby]
    simp [hr, if_neg (not_le.mpr hpos)]
  · intro hpos hle
    have hg : ¬ (amount ≤ 0 ∨ A.balance < amount) := by
      push_neg
      exact ⟨hpos, hle⟩
    have hr : A.withdraw amount =
        (true, { A with balance := A.balance - amount }) := by
      simp only [Account.withdraw, if_neg hg]
    unfold BankSystem.withdraw
    rw [hby]
    simp [hr, if_neg (not_le.mpr hpos)]
  · rintro hpos hle ⟨B, hB⟩
    have hg : ¬ (amount ≤ 0 ∨ A.balance < amount) := by
      push_neg
      exact ⟨hpos, hle⟩
    unfold BankSystem.transfer
    rw [hby, hB]
    simp [if_neg (not_le.mpr hpos), if_neg hg]
  · intro m B h
    exact first_with_number_active h

/-- A deactivated source account with funds. -/
def accI : Account :=
  { account_id := 1, user_id := 9, account_number := 33,
    account_type := "savings", balance := 60, created_at := 0,
    is_active := false, daily_transaction_limit := 50000,
    monthly_transaction_limit := 500000 }

/-- A state holding the deactivated `accI` and the active `accB`. -/
def bankIA : BankSystem :=
  { accounts := [(1, accI), (2, accB)], transactions := [],
    next_account_id := 3, next_tx_id := 0, now := 0 }

/-- C10 witness: deposit, withdrawal and outgoing transfer all succeed on a
concrete deactivated account. -/
theorem inactive_account_operations_spec_witness :
    (bankIA.deposit 1 10 "").1 = true ∧
    (bankIA.withdraw 1 10 "").1 = true ∧
    (bankIA.transfer 1 22 10 "").1 = true :=
  ⟨(inactive_account_operations_spec bankIA 1 accI 22 10 "" rfl rfl).1
      (by decide),
   (inactive_account_operations_spec bankIA 1 accI 22 10 "" rfl rfl).2.1
      (by decide) (by decide),
   (inactive_account_operations_spec bankIA 1 accI 22 10 "" rfl rfl).2.2.1
      (by decide) (by decide) ⟨accB, rfl⟩⟩

/-! ### Claim C6 -/

/-- Python's `sum(...)` generator fold agrees with the mapped list sum. -/
theorem sum_amounts_go (a : ℚ) :
    ∀ l : List Transaction,
      l.foldl (fun acc t => acc + t.amount) a = a + (l.map Transaction.amount).sum
  | [] => by simp
  | t :: rest => by
    rw [List.foldl_cons, sum_amounts_go (a + t.amount) rest, List.map_cons,
      List.sum_cons]
    ring

theorem sum_amounts_eq (l : List Transaction) :
    sum_amounts l = (l.map Transaction.amount).sum := by
  rw [sum_amounts, sum_amounts_go]
  ring

/-- C6 (confirmed): `get_transaction_summary` reports `total_deposits` as the
sum of amounts over in-window completed `deposit` records, `total_withdrawals`
likewise over completed `withdrawal` records, and `net_flow` as their
difference; and the whole summary is invariant under reordering of the
transaction store. -/
theorem transaction_summary_spec (txs txs' : List Transaction) (now : Int)
    (days : Nat) (hperm : txs.Perm txs') :
    transaction_summary txs now days = transaction_summary txs' now days ∧
    (transaction_summary txs now days).total_deposits =
      ((txs.filter fun t =>
          decide (t.transaction_type = TransactionType.deposit ∧
            t.status = TransactionStatus.completed) &&
          in_window now days t).map Transaction.amount).sum ∧
    (transaction_summary txs now days).total_withdrawals =
      ((txs.filter fun t =>
          decide (t.transaction_type = TransactionType.withdrawal ∧
            t.status = TransactionStatus.completed) &&
          in_window now days t).map Transaction.amount).sum ∧
    (transaction_summary txs now days).net_flow =
      (transaction_summary txs now days).total_deposits -
        (transaction_summary txs now days).total_withdrawals := by
  refine ⟨?_, ?_, ?_, rfl⟩
  · have hsum : ∀ (p : Transaction → Bool),
        sum_amounts ((txs.filter (in_window now days)).filter p) =
        sum_amounts ((txs'.filter (in_window now days)).filter p) := by
      intro p
      rw [sum_amounts_eq, sum_amounts_eq]
      exact (((hperm.filter (in_window now days)).filter p).map
        Transaction.amount).sum_eq
    simp only [transaction_summary, TransactionSummary.mk.injEq]
    exact ⟨trivial, (hperm.filter (in_window now days)).length_eq,
      hsum _, hsum _, hsum _, by rw [hsum _, hsum _]⟩
  · show sum_amounts ((txs.filter (in_window now days)).filter _) = _
    rw [sum_amounts_eq, List.filter_filter]
  · show sum_amounts ((txs.filter (in_window now days)).filter _) = _
    rw [sum_amounts_eq, List.filter_filter]

/-- Two in-window transactions used by the summary witness. -/
def txD : Transaction :=
  { transaction_id := 1, account_id := 1,
    transaction_type := TransactionType.deposit, amount := 7,
    description := "", target_account_id := none, created_at := 3,
    status := TransactionStatus.completed, reference_number := 100001,
    fee := 0 }

def txW : Transaction :=
  { transaction_id := 2, account_id := 1,
    transaction_type := TransactionType.withdrawal, amount := 4,
    description := "", target_account_id := none, created_at := 5,
    status := TransactionStatus.completed, reference_number := 100002,
    fee := 0 }

/-- C6 witness: the summary theorem applied to a two-transaction store and its
reversal. -/
theorem transaction_summary_spec_witness :
    transaction_summary [txD, txW] 10 30 =
      transaction_summary [txW, txD] 10 30 :=
  (transaction_summary_spec [txD, txW] [txW, txD] 10 30
    (List.Perm.swap txW txD [])).1

/-! ### Claim C7 -/

theorem transactionType_ofValue_value (t : TransactionType) :
    TransactionType.ofValue t.value = some t := by
  cases t <;> rfl

theorem transactionStatus_ofValue_value (st : TransactionStatus) :
    TransactionStatus.ofValue st.value = some st := by
  cases st <;> rfl

theorem user_from_to_dict (now : Int) (u : User) :
    User.from_dict now u.to_dict = u := rfl

theorem account_from_to_dict (now : Int) (a : Account) :
    Account.from_dict now a.to_dict = a := rfl

theorem transaction_from_to_dict (now : Int) (t : Transaction) :
    Transaction.from_dict now t.to_dict = some t := by
  unfold Transaction.from_dict Transaction.to_dict
  rw [transactionType_ofValue_value, transactionStatus_ofValue_value]
  rfl

/-- Deserialising every record of a serialised collection is the identity. -/
theorem map_roundtrip {α β : Type} (f : α → β) (g : β → α)
    (h : ∀ a, g (f a) = a) :
    ∀ l : List (Nat × α), (l.map fun p => (p.1, g (f p.2))) = l
  | [] => rfl
  | p :: rest => by
    rw [List.map_cons, h p.2, map_roundtrip f g h rest]

theorem load_save_transactions (now : Int) :
    ∀ txs : List (Nat × Transaction),
      DataManager.load_transactions now (DataManager.save_transactions txs) =
        some txs
  | [] => rfl
  | p :: rest => by
    have ih := load_save_transactions now rest
    unfold DataManager.load_transactions DataManager.save_transactions at ih ⊢
    rw [List.map_cons, List.mapM_cons]
    simp only [transaction_from_to_dict]
    rw [ih]
    rfl

/-- C7 (confirmed): for each of the three collections, deserialising a
serialised collection returns exactly the original records:
`load(save(collection)) = collection` (and `some collection` for
transactions, whose record decoder is fallible). -/
theorem persistence_round_trip (now : Int) (users : List (Nat × User))
    (accounts : List (Nat × Account))
    (transactions : List (Nat × Transaction)) :
    DataManager.load_users now (DataManager.save_users users) = users ∧
    DataManager.load_accounts now (DataManager.save_accounts accounts) =
      accounts ∧
    DataManager.load_transactions now
      (DataManager.save_transactions transactions) = some transactions := by
  refine ⟨?_, ?_, load_save_transactions now transactions⟩
  · unfold DataManager.load_users DataManager.save_users
    rw [List.map_map]
    exact map_roundtrip User.to_dict (User.from_dict now)
      (user_from_to_dict now) users
  · unfold DataManager.load_accounts DataManager.save_accounts
    rw [List.map_map]
    exact map_roundtrip Account.to_dict (Account.from_dict now)
      (account_from_to_dict now) accounts

/-! ### Claim C8 -/

/-- C8 (code_bug): a missing file and a file that fails JSON parsing both load
as the empty collection, and a record failing with a caught exception class
(`KeyError`/`ValueError`) also yields the empty collection — but a file whose
content parses to a JSON non-object (e.g. the corrupt content `[]`) raises an
uncaught `AttributeError` at `.items()` instead of returning the empty
collection, for each of the three structurally identical loaders. -/
theorem load_collection_corrupt_handling {α : Type}
    (decode : String → Json → RecordOutcome α) (k : String) (j : Json)
    (fields : List (String × Json))
    (hcaught : decode k j = RecordOutcome.caughtErr) :
    load_collection decode FileContent.absent = LoadResult.ok [] ∧
    load_collection decode FileContent.malformed = LoadResult.ok [] ∧
    load_collection decode
      (FileContent.parsed (Json.obj ((k, j) :: fields))) = LoadResult.ok [] ∧
    load_collection decode (FileContent.parsed (Json.arr [])) =
      LoadResult.raised := by
  refine ⟨rfl, rfl, ?_, rfl⟩
  unfold load_collection load_loop
  rw [hcaught]

/-- A record decoder that rejects everything with a caught exception, used to
instantiate the loader theorem. -/
def decode_caught : String → Json → RecordOutcome Unit :=
  fun _ _ => RecordOutcome.caughtErr

/-- C8 witness: the loader theorem applied to a concrete decoder and a
concrete one-record object. -/
theorem load_collection_corrupt_handling_witness :
    load_collection decode_caught
      (FileContent.parsed (Json.obj [("x", Json.null)])) = LoadResult.ok [] :=
  (load_collection_corrupt_handling decode_caught "x" Json.null [] rfl).2.2.1

/-! ### Claim C9 -/

/-- C9 (confirmed): `register_user` fails exactly when some stored user —
active or inactive — carries a character-for-character identical username;
on failure the store is untouched, and otherwise a fresh user with the
requested username is created and stored. -/
theorem register_user_spec (m : AuthManager)
    (username password email phone role : String) :
    ((m.register_user username password email phone role).1 = false ↔
      ∃ p ∈ m.users, p.2.username = username) ∧
    ((m.register_user username password email phone role).1 = false →
      (m.register_user username password email phone role).2 = m) ∧
    ((m.register_user username password email phone role).1 = true →
      (m.register_user username password email phone role).2.users =
        dinsert m.next_user_id
          (User.create_user m.next_user_id username password email phone role
            m.now) m.users ∧
      (User.create_user m.next_user_id username password email phone role
        m.now).username = username) := by
  unfold AuthManager.register_user
  by_cases h : (m.users.any fun p => p.2.username = username) = true
  · rw [if_pos h]
    have hex : ∃ p ∈ m.users, p.2.username = username := by
      simpa using List.any_eq_true.mp h
    exact ⟨⟨fun _ => hex, fun _ => rfl⟩, fun _ => rfl,
      fun hc => absurd hc (by simp)⟩
  · rw [if_neg h]
    have hnex : ¬ ∃ p ∈ m.users, p.2.username = username := by
      intro hex
      exact h (List.any_eq_true.mpr (by simpa using hex))
    exact ⟨⟨fun hc => absurd hc (by simp), fun hex => absurd hex hnex⟩,
      fun hc => absurd hc (by simp), fun _ => ⟨rfl, rfl⟩⟩

/-- A stored (and deactivated) user holding the username `alice`. -/
def userA : User :=
  { user_id := 1, username := "alice", email := "a@bank.com", phone := "123",
    role := "customer", password_hash := "sha256:pw", created_at := 0,
    last_login := none, is_active := false }

/-- An identity store holding only `userA`. -/
def authM : AuthManager :=
  { users := [(1, userA)], next_user_id := 2, now := 5 }

/-- C9 witness: registering `alice` again fails even though the holder is
deactivated, while the case-variant `Alice` registers successfully and is
stored. -/
theorem register_user_spec_witness :
    (authM.register_user "alice" "pw" "e" "p" "customer").1 = false ∧
    (authM.register_user "Alice" "pw" "e" "p" "customer").2.users =
      dinsert 2 (User.create_user 2 "Alice" "pw" "e" "p" "customer" 5)
        authM.users :=
  ⟨(register_user_spec authM "alice" "pw" "e" "p" "customer").1.mpr
      ⟨(1, userA), List.mem_cons_self _ _, rfl⟩,
   ((register_user_spec authM "Alice" "pw" "e" "p" "customer").2.2
      (by decide)).1⟩

end Bank
